import Mathlib

/-!
Shallow embedding of the book-lending program (`src/main.rs`) and proofs of
the specification's claims about it.

Modelling conventions:
* Rust `u32` fields are modelled as `Nat`.  The mutation paths never
  underflow (`-= 1` is guarded by `== 0`) or overflow (`+= 1` is guarded by
  `copies_available >= copies_total`, and `copies_total` fits in `u32`), so
  no explicit `% 2^32` is needed on those paths; the `u32` range check of
  the JSON decoder is kept explicitly (`< 2^32`).
* The storage file is modelled by `FileState`; the JSON text layer of
  `serde_json` is abstracted to a structural `Json` document, with
  serialization/deserialization of the derived `Serialize`/`Deserialize`
  instances embedded field by field.
* Interactive input (`read_choice`) is modelled as an `Option String`
  parameter (`none` = read failure); `println!`/`eprintln!` diagnostics are
  reflected in the result types where a claim distinguishes them.
-/

/-- `struct Book` (main.rs lines 11-18). -/
structure Book where
  id : String
  title : String
  author : String
  copies_total : Nat
  copies_available : Nat
deriving DecidableEq, Repr

/-- `struct Library` (main.rs lines 20-23). -/
structure Library where
  books : List Book
deriving DecidableEq, Repr

/-- `default_library` (main.rs lines 29-62): the built-in 4-item catalog. -/
def default_library : Library :=
  { books :=
      [ { id := "B001", title := "1984", author := "George Orwell",
          copies_total := 3, copies_available := 3 },
        { id := "B002", title := "Pride and Prejudice", author := "Jane Austen",
          copies_total := 2, copies_available := 2 },
        { id := "B003", title := "To Kill a Mockingbird", author := "Harper Lee",
          copies_total := 4, copies_available := 4 },
        { id := "B004", title := "The Great Gatsby", author := "F. Scott Fitzgerald",
          copies_total := 2, copies_available := 2 } ] }

/-- `borrowed_count` (main.rs lines 99-101): `copies_total.saturating_sub
(copies_available)`.  `Nat` subtraction is truncated at zero, which is
exactly `u32::saturating_sub` on in-range values. -/
def borrowed_count (book : Book) : Nat :=
  book.copies_total - book.copies_available

/-- The error outcomes of the inventory operations, named as in the spec's
taxonomy (§7).  In the source they surface as the messages
"No copies left to borrow." and "All copies are already in the library.". -/
inductive OperationError where
  | NoCopiesAvailable
  | AllCopiesPresent
deriving DecidableEq, Repr

/-- The mutation core of `borrow_book` (main.rs lines 245-262), given the
already-selected `book_idx`.  `none` models the out-of-range index panic of
`library.books[book_idx]` (unreachable: candidate indices are built from the
catalog).  `some (lib, some e)` is the guarded early return with the catalog
untouched; `some (lib', none)` is a successful decrement. -/
def borrow_book (lib : Library) (book_idx : Nat) :
    Option (Library × Option OperationError) :=
  match lib.books[book_idx]? with
  | none => none
  | some book =>
    if book.copies_available = 0 then
      some (lib, some OperationError.NoCopiesAvailable)
    else
      some (⟨lib.books.set book_idx
              { book with copies_available := book.copies_available - 1 }⟩, none)

/-- The mutation core of `return_book` (main.rs lines 284-301), given the
already-selected `book_idx`; conventions as for `borrow_book`. -/
def return_book (lib : Library) (book_idx : Nat) :
    Option (Library × Option OperationError) :=
  match lib.books[book_idx]? with
  | none => none
  | some book =>
    if book.copies_available ≥ book.copies_total then
      some (lib, some OperationError.AllCopiesPresent)
    else
      some (⟨lib.books.set book_idx
              { book with copies_available := book.copies_available + 1 }⟩, none)

/-- The copy-count invariant of the spec (§3, §8):
`0 <= copies_available <= copies_total`. -/
def book_inv (b : Book) : Prop :=
  0 ≤ b.copies_available ∧ b.copies_available ≤ b.copies_total

instance (b : Book) : Decidable (book_inv b) := by
  unfold book_inv; infer_instance

/-- The invariant holds for every item of the catalog. -/
def library_inv (lib : Library) : Prop :=
  ∀ b ∈ lib.books, book_inv b

instance (lib : Library) : Decidable (library_inv lib) := by
  unfold library_inv; infer_instance

/-! ### The Catalog Store: JSON layer and `load_data`/`save_data` -/

/-- Structural JSON documents.  The textual layer of `serde_json` is
abstracted away: a file holds either no JSON document, or a document of this
shape. -/
inductive Json where
  | str (s : String)
  | num (n : Nat)
  | arr (elems : List Json)
  | obj (fields : List (String × Json))
deriving Repr

/-- The derived `Serialize` instance of `Book`: a JSON object with the five
fields in declaration order. -/
def book_to_json (b : Book) : Json :=
  .obj [("id", .str b.id), ("title", .str b.title), ("author", .str b.author),
        ("copies_total", .num b.copies_total),
        ("copies_available", .num b.copies_available)]

/-- The derived `Serialize` instance of `Library`: an object with a single
field `books` holding the list of serialized books. -/
def library_to_json (lib : Library) : Json :=
  .obj [("books", .arr (lib.books.map book_to_json))]

/-- Field lookup in a JSON object (first occurrence).  `serde_json`
additionally rejects duplicate fields, which is not modelled: the program's
own serializer emits each field exactly once. -/
def lookup_field (fields : List (String × Json)) (key : String) : Option Json :=
  (fields.find? fun p => p.1 == key).map Prod.snd

/-- Decoding a JSON value into a Rust `String`. -/
def as_string : Json → Option String
  | .str s => some s
  | _ => none

/-- Decoding a JSON value into a Rust `u32`: a number within the `u32`
range. -/
def as_u32 : Json → Option Nat
  | .num n => if n < 2 ^ 32 then some n else none
  | _ => none

/-- The derived `Deserialize` instance of `Book`: requires all five fields
with the right types (a missing field or a wrong type is a parse failure,
spec §6); unknown fields are ignored (serde default). -/
def book_from_json : Json → Option Book
  | .obj fields => do
    let id ← lookup_field fields "id" >>= as_string
    let title ← lookup_field fields "title" >>= as_string
    let author ← lookup_field fields "author" >>= as_string
    let copies_total ← lookup_field fields "copies_total" >>= as_u32
    let copies_available ← lookup_field fields "copies_available" >>= as_u32
    pure { id, title, author, copies_total, copies_available }
  | _ => none

/-- Sequence decoding: every element must decode, failing on the first
element that does not (as serde does). -/
def books_from_json : List Json → Option (List Book)
  | [] => some []
  | j :: rest => do
    let b ← book_from_json j
    let bs ← books_from_json rest
    pure (b :: bs)

/-- The derived `Deserialize` instance of `Library`. -/
def library_from_json : Json → Option Library
  | .obj fields =>
    match lookup_field fields "books" with
    | some (.arr elems) => do
      let books ← books_from_json elems
      pure { books }
    | _ => none
  | _ => none

/-- The state of the storage file `library_data.json`, as `load_data`
distinguishes it. -/
inductive FileState where
  | missing
  /-- The file exists but `fs::read_to_string` fails. -/
  | unreadable
  /-- The file exists and is readable but its text is not a JSON document. -/
  | invalidText
  /-- The file exists and is readable and holds the JSON document `doc`. -/
  | jsonDoc (doc : Json)

/-- `save_data` (main.rs lines 64-68): serialize the whole library and write
it to the file, replacing prior contents.  `writeOk` models the outcome of
`fs::write` (serialization itself cannot fail for this type).  Returns the
new file state and whether the save succeeded. -/
def save_data (lib : Library) (writeOk : Bool) (fs : FileState) :
    FileState × Bool :=
  if writeOk then (FileState.jsonDoc (library_to_json lib), true) else (fs, false)

/-- The result of `load_data`: the returned library, plus whether the
default catalog was written back to storage (`defaultSave = some ok` means
`save_data (default_library)` was attempted and returned `ok`; `none` means
no save was attempted).  A failed save only produces an `eprintln!` warning
in the source. -/
structure LoadResult where
  lib : Library
  defaultSave : Option Bool
deriving DecidableEq, Repr

/-- `load_data` (main.rs lines 70-97).  `saveOk` models the outcome of the
`fs::write` inside any `save_data` attempt made during loading.  The
function is total: it always returns a library, never an error. -/
def load_data (fs : FileState) (saveOk : Bool) : LoadResult :=
  match fs with
  | .missing => { lib := default_library, defaultSave := some saveOk }
  | .unreadable => { lib := default_library, defaultSave := none }
  | .invalidText => { lib := default_library, defaultSave := some saveOk }
  | .jsonDoc doc =>
    match library_from_json doc with
    | some lib => { lib := lib, defaultSave := none }
    | none => { lib := default_library, defaultSave := some saveOk }

/-! ### Selection (`select_book_index`) -/

/-- Rust `str::parse::<usize>` (main.rs line 183): an optional leading `+`
sign followed by one or more ASCII digits, rejected on overflow above
`usize::MAX`.  `usize` is 64-bit (the reference target), so a digit string
whose value is `>= 2^64` is a parse error in the source, falling through to
the identifier branch; the model does the same.  (Rust detects overflow
during accumulation, which rejects exactly the values above `usize::MAX`.) -/
def parse_usize (s : String) : Option Nat :=
  let digits := match s.data with
    | '+' :: rest => rest
    | cs => cs
  if digits.isEmpty || !digits.all Char.isDigit then none
  else
    let n := digits.foldl (fun n c => n * 10 + (c.toNat - '0'.toNat)) 0
    if n < 2 ^ 64 then some n else none

/-- ASCII lowercasing, used only to instantiate the abstract lowercasing
parameter `lower` of the selection functions at concrete inputs.  Rust's
Unicode `str::to_lowercase` agrees with it on ASCII strings (Unicode
lowercases `A`-`Z` to `a`-`z` and fixes the other ASCII characters). -/
def ascii_to_lowercase (s : String) : String :=
  ⟨s.data.map Char.toLower⟩

/-- The guard of main.rs line 179: empty input, or input ASCII-case-equal to
the cancellation sentinel `"q"`. -/
def is_cancel (s : String) : Bool :=
  s.data.isEmpty || s == "q" || s == "Q"

/-- The three observable outcomes of `select_book_index`.  The source
returns `Option<usize>`; `noSelection` is a silent `None` (cancellation or
read failure), `notFound` is `None` after printing "Invalid selection." or
"Book not found.". -/
inductive Selection where
  | noSelection
  | notFound
  | selected (bookIdx : Nat)
deriving DecidableEq, Repr

/-- Whether the candidate `idx` matches the (lowercased) token by
identifier (main.rs line 193):
`library.books[*idx].id.to_lowercase() == lowered`.  `lower` abstracts
Rust's Unicode `str::to_lowercase`, which is standard-library code, not code
of this repository; the selection properties below hold for every choice of
`lower`, so in particular for the real one.  An out-of-range candidate index
never matches (in the source it would panic; candidate sets are always
built from the catalog). -/
def id_matches (lower : String → String) (lib : Library) (lowered : String)
    (idx : Nat) : Bool :=
  match lib.books[idx]? with
  | some book => lower book.id == lowered
  | none => false

/-- `select_book_index` (main.rs lines 177-200).  `input` is the trimmed
line produced by `read_choice` (`none` = read failure); `lower` abstracts
Rust's Unicode `str::to_lowercase` as in `id_matches`. -/
def select_book_index (lower : String → String) (lib : Library)
    (indices : List Nat) (input : Option String) : Selection :=
  match input with
  | none => .noSelection
  | some input =>
    if is_cancel input then .noSelection
    else
      match parse_usize input with
      | some num =>
        if 1 ≤ num ∧ num ≤ indices.length then
          match indices[num - 1]? with
          | some idx => .selected idx
          | none => .notFound
        else .notFound
      | none =>
        match indices.find? (id_matches lower lib (lower input)) with
        | some idx => .selected idx
        | none => .notFound

/-! ### Theorems -/

/-- On an item with copies available, `borrow_book` succeeds and decrements
that item's `copies_available`. -/
theorem borrow_book_success {lib : Library} {i : Nat} {b : Book}
    (hb : lib.books[i]? = some b) (h0 : b.copies_available ≠ 0) :
    borrow_book lib i =
      some (⟨lib.books.set i
              { b with copies_available := b.copies_available - 1 }⟩, none) := by
  unfold borrow_book
  rw [hb]
  simp [h0]

/-- On an item with a copy outstanding, `return_book` succeeds and
increments that item's `copies_available`. -/
theorem return_book_success {lib : Library} {i : Nat} {b : Book}
    (hb : lib.books[i]? = some b)
    (hlt : b.copies_available < b.copies_total) :
    return_book lib i =
      some (⟨lib.books.set i
              { b with copies_available := b.copies_available + 1 }⟩, none) := by
  unfold return_book
  rw [hb]
  simp [Nat.not_le.mpr hlt]

/-- C1: every operation (Borrow, Return) preserves the invariant
`0 <= copies_available <= copies_total` on every item: if the input catalog
satisfies it, so does the catalog after the operation, whether it succeeded
or failed. -/
theorem C1_operations_preserve_invariant (lib : Library) (i : Nat)
    (hinv : library_inv lib) :
    (∀ lib' e, borrow_book lib i = some (lib', e) → library_inv lib') ∧
    (∀ lib' e, return_book lib i = some (lib', e) → library_inv lib') := by
  constructor
  · intro lib' e h
    unfold borrow_book at h
    cases hget : lib.books[i]? with
    | none => rw [hget] at h; exact absurd h (by simp)
    | some book =>
      rw [hget] at h
      by_cases h0 : book.copies_available = 0
      · simp only [h0, if_pos rfl] at h
        cases h; exact hinv
      · simp only [if_neg h0, Option.some.injEq, Prod.mk.injEq] at h
        obtain ⟨hlib, -⟩ := h
        subst hlib
        intro b hb
        rcases List.mem_or_eq_of_mem_set hb with hmem | heq
        · exact hinv b hmem
        · subst heq
          exact ⟨Nat.zero_le _,
            Nat.le_trans (Nat.sub_le _ _) (hinv book (List.getElem?_mem hget)).2⟩
  · intro lib' e h
    unfold return_book at h
    cases hget : lib.books[i]? with
    | none => rw [hget] at h; exact absurd h (by simp)
    | some book =>
      rw [hget] at h
      by_cases hge : book.copies_available ≥ book.copies_total
      · simp only [if_pos hge] at h
        cases h; exact hinv
      · simp only [if_neg hge, Option.some.injEq, Prod.mk.injEq] at h
        obtain ⟨hlib, -⟩ := h
        subst hlib
        intro b hb
        rcases List.mem_or_eq_of_mem_set hb with hmem | heq
        · exact hinv b hmem
        · subst heq
          exact ⟨Nat.zero_le _, Nat.succ_le_of_lt (Nat.lt_of_not_le hge)⟩

/-- C1 witness at a concrete catalog. -/
theorem C1_operations_preserve_invariant_witness :
    library_inv default_library ∧
    ∀ lib' e, borrow_book default_library 0 = some (lib', e) →
      library_inv lib' := by
  refine ⟨by decide, ?_⟩
  exact (C1_operations_preserve_invariant default_library 0 (by decide)).1

/-- C2: `Borrow` on an item with `copies_available == 0` fails with
`NoCopiesAvailable` and leaves the catalog completely unchanged. -/
theorem C2_borrow_no_copies_fails_unchanged (lib : Library) (i : Nat)
    (b : Book) (hb : lib.books[i]? = some b) (h0 : b.copies_available = 0) :
    borrow_book lib i = some (lib, some OperationError.NoCopiesAvailable) := by
  unfold borrow_book
  rw [hb]
  simp [h0]

/-- C2 witness: borrowing from a concrete zero-copy item. -/
theorem C2_borrow_no_copies_fails_unchanged_witness :
    borrow_book ⟨[⟨"B001", "1984", "George Orwell", 3, 0⟩]⟩ 0 =
      some (⟨[⟨"B001", "1984", "George Orwell", 3, 0⟩]⟩,
            some OperationError.NoCopiesAvailable) :=
  C2_borrow_no_copies_fails_unchanged _ 0
    ⟨"B001", "1984", "George Orwell", 3, 0⟩ (by decide) (by decide)

/-- C3: `Return` on an item with `copies_available == copies_total` fails
with `AllCopiesPresent` and leaves the catalog completely unchanged. -/
theorem C3_return_all_present_fails_unchanged (lib : Library) (i : Nat)
    (b : Book) (hb : lib.books[i]? = some b)
    (heq : b.copies_available = b.copies_total) :
    return_book lib i = some (lib, some OperationError.AllCopiesPresent) := by
  unfold return_book
  rw [hb]
  simp [heq]

/-- C3 witness: returning a concrete fully-stocked item. -/
theorem C3_return_all_present_fails_unchanged_witness :
    return_book ⟨[⟨"B001", "1984", "George Orwell", 3, 3⟩]⟩ 0 =
      some (⟨[⟨"B001", "1984", "George Orwell", 3, 3⟩]⟩,
            some OperationError.AllCopiesPresent) :=
  C3_return_all_present_fails_unchanged _ 0
    ⟨"B001", "1984", "George Orwell", 3, 3⟩ (by decide) (by decide)

/-- C4: on a catalog satisfying the invariant, Borrow then Return on the
same item (no intervening operations) both succeed and restore that item's
`copies_available` to its prior value. -/
theorem C4_borrow_return_roundtrip (lib : Library) (i : Nat) (b : Book)
    (hinv : library_inv lib) (hb : lib.books[i]? = some b)
    (hpos : 0 < b.copies_available) :
    ∃ lib₁ lib₂,
      borrow_book lib i = some (lib₁, none) ∧
      return_book lib₁ i = some (lib₂, none) ∧
      ∃ b₂, lib₂.books[i]? = some b₂ ∧
        b₂.copies_available = b.copies_available := by
  obtain ⟨hlen, -⟩ := List.getElem?_eq_some_iff.mp hb
  have havail : b.copies_available ≤ b.copies_total :=
    (hinv b (List.getElem?_mem hb)).2
  have hlt : b.copies_available - 1 < b.copies_total :=
    Nat.lt_of_lt_of_le (Nat.sub_lt hpos Nat.one_pos) havail
  have h1 := borrow_book_success hb (Nat.pos_iff_ne_zero.mp hpos)
  have hset : (lib.books.set i
      { b with copies_available := b.copies_available - 1 })[i]? =
      some { b with copies_available := b.copies_available - 1 } :=
    List.getElem?_set_self hlen
  have h2 := @return_book_success
    ⟨lib.books.set i { b with copies_available := b.copies_available - 1 }⟩
    i { b with copies_available := b.copies_available - 1 } hset hlt
  exact ⟨_, _, h1, h2,
    ⟨_, List.getElem?_set_self (by simpa using hlen),
      Nat.succ_pred_eq_of_pos hpos⟩⟩

/-- C4 witness: borrow/return round-trip on the default catalog. -/
theorem C4_borrow_return_roundtrip_witness :
    ∃ lib₁ lib₂,
      borrow_book default_library 0 = some (lib₁, none) ∧
      return_book lib₁ 0 = some (lib₂, none) ∧
      ∃ b₂, lib₂.books[0]? = some b₂ ∧ b₂.copies_available = 3 :=
  C4_borrow_return_roundtrip default_library 0
    ⟨"B001", "1984", "George Orwell", 3, 3⟩
    (by decide) (by decide) (by decide)

/-- C9: a successful Borrow (resp. Return) changes only the selected item's
`copies_available`, decrementing (resp. incrementing) it by exactly 1; the
item's other fields, every other item, and the catalog's length and order
are unchanged. -/
theorem C9_success_frame (lib : Library) (i : Nat) (b : Book)
    (hb : lib.books[i]? = some b) :
    (0 < b.copies_available →
      ∃ lib', borrow_book lib i = some (lib', none) ∧
        lib'.books.length = lib.books.length ∧
        (∀ j, j ≠ i → lib'.books[j]? = lib.books[j]?) ∧
        lib'.books[i]? =
          some { b with copies_available := b.copies_available - 1 }) ∧
    (b.copies_available < b.copies_total →
      ∃ lib', return_book lib i = some (lib', none) ∧
        lib'.books.length = lib.books.length ∧
        (∀ j, j ≠ i → lib'.books[j]? = lib.books[j]?) ∧
        lib'.books[i]? =
          some { b with copies_available := b.copies_available + 1 }) := by
  obtain ⟨hlen, -⟩ := List.getElem?_eq_some_iff.mp hb
  constructor
  · intro hpos
    refine ⟨_, borrow_book_success hb (Nat.pos_iff_ne_zero.mp hpos),
            List.length_set .., ?_, List.getElem?_set_self hlen⟩
    intro j hj
    exact List.getElem?_set_ne (Ne.symm hj)
  · intro hlt
    refine ⟨_, return_book_success hb hlt,
            List.length_set .., ?_, List.getElem?_set_self hlen⟩
    intro j hj
    exact List.getElem?_set_ne (Ne.symm hj)

/-- C9 witness: the frame property at a concrete successful borrow. -/
theorem C9_success_frame_witness :
    ∃ lib', borrow_book default_library 0 = some (lib', none) ∧
      lib'.books.length = default_library.books.length ∧
      (∀ j, j ≠ 0 → lib'.books[j]? = default_library.books[j]?) ∧
      lib'.books[0]? =
        some ⟨"B001", "1984", "George Orwell", 3, 2⟩ :=
  (C9_success_frame default_library 0
    ⟨"B001", "1984", "George Orwell", 3, 3⟩ (by decide)).1 (by decide)

/-- C10: the derived borrowed count uses saturating subtraction: it is never
negative, and on an item violating the invariant
(`copies_available > copies_total`) it is 0 rather than an underflow or a
panic. -/
theorem C10_borrowed_count_saturates (b : Book) :
    0 ≤ borrowed_count b ∧
    (b.copies_total < b.copies_available → borrowed_count b = 0) :=
  ⟨Nat.zero_le _, fun h => Nat.sub_eq_zero_of_le (Nat.le_of_lt h)⟩

/-- C10 witness: an inconsistent item (5 available of 3 total) yields a
borrowed count of 0. -/
theorem C10_borrowed_count_saturates_witness :
    0 ≤ borrowed_count ⟨"B001", "1984", "George Orwell", 3, 5⟩ ∧
    borrowed_count ⟨"B001", "1984", "George Orwell", 3, 5⟩ = 0 :=
  ⟨(C10_borrowed_count_saturates _).1,
   (C10_borrowed_count_saturates _).2 (by decide)⟩

/-- C5: with no persisted state, `load_data` returns the documented 4-item
default catalog, after attempting to write it (`defaultSave = some saveOk`
records the attempt), and does so whatever the write outcome `saveOk`;
`load_data` is total, so it never fails with a hard error. -/
theorem C5_load_missing_seeds_default (saveOk : Bool) :
    load_data FileState.missing saveOk =
      { lib := default_library, defaultSave := some saveOk } ∧
    default_library.books =
      [ ⟨"B001", "1984", "George Orwell", 3, 3⟩,
        ⟨"B002", "Pride and Prejudice", "Jane Austen", 2, 2⟩,
        ⟨"B003", "To Kill a Mockingbird", "Harper Lee", 4, 4⟩,
        ⟨"B004", "The Great Gatsby", "F. Scott Fitzgerald", 2, 2⟩ ] :=
  ⟨rfl, rfl⟩

/-- C6: a readable file whose contents do not parse yields the default
catalog with a best-effort overwrite attempt (`defaultSave = some saveOk`),
never a propagated parse error; a read I/O failure yields the default
catalog with no overwrite attempt (`defaultSave = none`). -/
theorem C6_load_recovers_from_corruption (saveOk : Bool) :
    (∀ doc, library_from_json doc = none →
      load_data (FileState.jsonDoc doc) saveOk =
        { lib := default_library, defaultSave := some saveOk }) ∧
    load_data FileState.invalidText saveOk =
      { lib := default_library, defaultSave := some saveOk } ∧
    load_data FileState.unreadable saveOk =
      { lib := default_library, defaultSave := none } := by
  refine ⟨fun doc h => ?_, rfl, rfl⟩
  simp only [load_data, h]

/-- C6 witness: a well-formed JSON document that is not a catalog. -/
theorem C6_load_recovers_from_corruption_witness :
    load_data (FileState.jsonDoc (Json.num 0)) true =
      { lib := default_library, defaultSave := some true } :=
  (C6_load_recovers_from_corruption true).1 (Json.num 0) rfl

/-- Decoding inverts encoding on a single book whose counts are in `u32`
range. -/
theorem book_from_json_to_json {b : Book}
    (h1 : b.copies_total < 2 ^ 32) (h2 : b.copies_available < 2 ^ 32) :
    book_from_json (book_to_json b) = some b := by
  have h1' : b.copies_total < 4294967296 := h1
  have h2' : b.copies_available < 4294967296 := h2
  simp [book_to_json, book_from_json, lookup_field, as_string, as_u32,
        List.find?, h1', h2']

/-- Decoding inverts encoding on a list of books. -/
theorem books_from_json_to_json {books : List Book}
    (h : ∀ b ∈ books,
      b.copies_total < 2 ^ 32 ∧ b.copies_available < 2 ^ 32) :
    books_from_json (books.map book_to_json) = some books := by
  induction books with
  | nil => rfl
  | cons b bs ih =>
    have hb := h b (List.mem_cons_self ..)
    simp [books_from_json, book_from_json_to_json hb.1 hb.2,
          ih fun x hx => h x (List.mem_cons_of_mem _ hx)]

/-- Every count of the catalog fits in a `u32` (automatic in the source,
where the fields have type `u32`). -/
def u32_bounded (lib : Library) : Prop :=
  ∀ b ∈ lib.books, b.copies_total < 2 ^ 32 ∧ b.copies_available < 2 ^ 32

instance (lib : Library) : Decidable (u32_bounded lib) := by
  unfold u32_bounded; infer_instance

/-- C8: a successful `save_data` followed by `load_data` reproduces the
saved catalog exactly — every field of every item and the item order — with
no fallback to the default catalog. -/
theorem C8_save_load_roundtrip (lib : Library) (h : u32_bounded lib)
    (fs : FileState) (saveOk : Bool) :
    save_data lib true fs = (FileState.jsonDoc (library_to_json lib), true) ∧
    load_data (save_data lib true fs).1 saveOk =
      { lib := lib, defaultSave := none } := by
  refine ⟨rfl, ?_⟩
  show load_data (FileState.jsonDoc (library_to_json lib)) saveOk = _
  unfold load_data library_to_json library_from_json
  simp [lookup_field, List.find?, books_from_json_to_json h]

/-- C8 witness: round-trip of the default catalog. -/
theorem C8_save_load_roundtrip_witness :
    load_data (save_data default_library true FileState.missing).1 true =
      { lib := default_library, defaultSave := none } :=
  (C8_save_load_roundtrip default_library (by decide)
    FileState.missing true).2

/-- C7: selection resolution, for every lowercasing function `lower`
(instantiable with Rust's Unicode `str::to_lowercase`).  A numeric token
`num` with `1 <= num <= len(candidates)` selects the candidate at 1-based
position `num`; a token parsing as a number outside that range is "not
found" (numeric parsing is tried before identifier matching: both cases hold
whatever the candidates' identifiers are); a non-numeric token — including a
`usize`-overflowing digit string — equal to a candidate's identifier under
the case-insensitive comparison selects that candidate; an empty token or
the cancellation sentinel `q`/`Q` is "no selection"; any other token is
"not found". -/
theorem C7_select_book_index (lower : String → String) (lib : Library)
    (indices : List Nat) :
    (∀ input num idx, is_cancel input = false →
      parse_usize input = some num → 1 ≤ num → num ≤ indices.length →
      indices[num - 1]? = some idx →
      select_book_index lower lib indices (some input) = .selected idx) ∧
    (∀ input num, is_cancel input = false →
      parse_usize input = some num →
      (num = 0 ∨ indices.length < num) →
      select_book_index lower lib indices (some input) = .notFound) ∧
    (∀ input idx, is_cancel input = false → parse_usize input = none →
      idx ∈ indices → id_matches lower lib (lower input) idx = true →
      (∀ j ∈ indices, id_matches lower lib (lower input) j = true → j = idx) →
      select_book_index lower lib indices (some input) = .selected idx) ∧
    (∀ input, is_cancel input = true →
      select_book_index lower lib indices (some input) = .noSelection) ∧
    (∀ input, is_cancel input = false → parse_usize input = none →
      (∀ j ∈ indices, id_matches lower lib (lower input) j = false) →
      select_book_index lower lib indices (some input) = .notFound) := by
  refine ⟨?_, ?_, ?_, ?_, ?_⟩
  · intro input num idx hc hp h1 h2 hidx
    simp [select_book_index, hc, hp, h1, h2, hidx]
  · intro input num hc hp hrange
    have hno : ¬ (1 ≤ num ∧ num ≤ indices.length) := by omega
    simp [select_book_index, hc, hp, hno]
  · intro input idx hc hp hmem hmatch huniq
    cases hfind : indices.find? (id_matches lower lib (lower input)) with
    | none =>
      rw [List.find?_eq_none] at hfind
      exact absurd hmatch (hfind idx hmem)
    | some j =>
      have hj := huniq j (List.mem_of_find?_eq_some hfind)
        (List.find?_some hfind)
      subst hj
      simp [select_book_index, hc, hp, hfind]
  · intro input hc
    simp [select_book_index, hc]
  · intro input hc hp hnone
    have hfind : indices.find? (id_matches lower lib (lower input)) = none :=
      List.find?_eq_none.mpr fun j hj => by simp [hnone j hj]
    simp [select_book_index, hc, hp, hfind]

/-- C7 witness: the spec's own examples against a 3-element candidate set
over the default catalog, with `lower` instantiated at `ascii_to_lowercase`
(which agrees with Rust's lowercasing on these ASCII strings; `"b003"`
matches `B003` case-insensitively). -/
theorem C7_select_book_index_witness :
    select_book_index ascii_to_lowercase default_library [0, 1, 2]
      (some "2") = Selection.selected 1 ∧
    select_book_index ascii_to_lowercase default_library [0, 1, 2]
      (some "0") = Selection.notFound ∧
    select_book_index ascii_to_lowercase default_library [0, 1, 2]
      (some "4") = Selection.notFound ∧
    select_book_index ascii_to_lowercase default_library [0, 1, 2]
      (some "b003") = Selection.selected 2 ∧
    select_book_index ascii_to_lowercase default_library [0, 1, 2]
      (some "") = Selection.noSelection ∧
    select_book_index ascii_to_lowercase default_library [0, 1, 2]
      (some "zzz") = Selection.notFound := by
  refine ⟨?_, ?_, ?_, ?_, ?_, ?_⟩
  · exact (C7_select_book_index ascii_to_lowercase default_library
      [0, 1, 2]).1 "2" 2 1
      (by decide) (by decide) (by decide) (by decide) (by decide)
  · exact (C7_select_book_index ascii_to_lowercase default_library
      [0, 1, 2]).2.1 "0" 0 (by decide) (by decide) (Or.inl rfl)
  · exact (C7_select_book_index ascii_to_lowercase default_library
      [0, 1, 2]).2.1 "4" 4 (by decide) (by decide) (Or.inr (by decide))
  · exact (C7_select_book_index ascii_to_lowercase default_library
      [0, 1, 2]).2.2.1 "b003" 2
      (by decide) (by decide) (by decide) (by decide) (by decide)
  · exact (C7_select_book_index ascii_to_lowercase default_library
      [0, 1, 2]).2.2.2.1 "" (by decide)
  · exact (C7_select_book_index ascii_to_lowercase default_library
      [0, 1, 2]).2.2.2.2 "zzz" (by decide) (by decide) (by decide)
